import Mathlib

/-!
Verification development for the dns-intel MCP server.

The development shallowly embeds the protocol/session core and the three
tool adapters of the repository:
* a model of the JavaScript JSON values the code manipulates
  (`Json`), together with models of `JSON.stringify` (compact and with
  `null, 2` pretty-printing) and of `JSON.parse` (restricted to the JSON
  subset the code actually produces and consumes: integers without
  fraction/exponent parts, strings with the common escapes, arrays,
  objects, literals);
* the pagination-cursor codec of `src/tools/ct.ts` (base64 of a JSON
  object, Node-style lenient base64 decoding);
* the three tool adapters `rdapLookup`, `dnsQuery`, `ctSearch`, with the
  outcome of the single outbound `fetch` call made explicit as a value of
  `FetchOutcome` (resolved response, abort by the timeout controller, or a
  thrown error);
* the stateless JSON-RPC dispatcher and `/mcp` handler of the HTTP
  transport, with tool invocations made explicit through an `Adapters`
  record (each invocation either resolves with a serialized envelope or
  throws);
* the session table of the session-oriented transport, as a state machine;
* the MCP-SDK tool-call handler of `createServer`.

Numbers are modelled as unbounded integers (`Int`): the code only
manipulates array offsets, limits and HTTP statuses, far below the range
where JavaScript number semantics would diverge.
-/

set_option autoImplicit false

namespace DnsIntel

/-! ## JavaScript JSON values -/

/-- A JSON value as produced by `JSON.parse` / consumed by
`JSON.stringify`. Numbers are restricted to integers: every number the
repository's core produces (offsets, limits, statuses, ids) is integral. -/
inductive Json where
  | null : Json
  | bool : Bool → Json
  | num : Int → Json
  | str : String → Json
  | arr : List Json → Json
  | obj : List (String × Json) → Json

/-- Property lookup `v[k]` on an object; `none` models JavaScript
`undefined` (non-objects have no own properties in the code paths
modelled here). -/
def jLookup (j : Json) (k : String) : Option Json :=
  match j with
  | .obj kvs => kvs.lookup k
  | _ => none

/-- JavaScript truthiness of a JSON value (`undefined` is handled by the
callers through `Option`). -/
def jsTruthy : Json → Bool
  | .null => false
  | .bool b => b
  | .num i => i ≠ 0
  | .str s => s ≠ ""
  | .arr _ => true
  | .obj _ => true

/-! ## Decimal digit strings

`natDigits` models how JavaScript prints a non-negative integer in
`JSON.stringify` and template literals: its decimal digits, most
significant first. -/

/-- The character for a single decimal digit value. -/
def digitChar : Nat → Char
  | 0 => '0' | 1 => '1' | 2 => '2' | 3 => '3' | 4 => '4'
  | 5 => '5' | 6 => '6' | 7 => '7' | 8 => '8' | _ => '9'

/-- Decimal digits of a natural number, most significant first. -/
def natDigits (n : Nat) : List Char :=
  if _h : n < 10 then [digitChar n]
  else natDigits (n / 10) ++ [digitChar (n % 10)]
  termination_by n
  decreasing_by exact Nat.div_lt_self (by omega) (by omega)

/-- Decimal notation of an integer, as JavaScript prints it. -/
def intChars (i : Int) : List Char :=
  if i < 0 then '-' :: natDigits i.natAbs else natDigits i.natAbs

def intStr (i : Int) : String := ⟨intChars i⟩

/-! ## JSON.stringify -/

/-- Hexadecimal digit character (for `\u00XX` escapes). -/
def hexChar : Nat → Char
  | 0 => '0' | 1 => '1' | 2 => '2' | 3 => '3' | 4 => '4'
  | 5 => '5' | 6 => '6' | 7 => '7' | 8 => '8' | 9 => '9'
  | 10 => 'a' | 11 => 'b' | 12 => 'c' | 13 => 'd' | 14 => 'e' | _ => 'f'

/-- `JSON.stringify` escaping of one character inside a string literal. -/
def escStrChar (c : Char) : List Char :=
  if c = '"' then ['\\', '"']
  else if c = '\\' then ['\\', '\\']
  else if c = '\n' then ['\\', 'n']
  else if c = '\t' then ['\\', 't']
  else if c = '\r' then ['\\', 'r']
  else if c = '\x08' then ['\\', 'b']
  else if c = '\x0c' then ['\\', 'f']
  else if c.toNat < 32 then
    ['\\', 'u', '0', '0', hexChar (c.toNat / 16), hexChar (c.toNat % 16)]
  else [c]

/-- A JSON string literal for `s`, quotes included. -/
def quoteStr (s : String) : String :=
  ⟨'"' :: (s.data.flatMap escStrChar) ++ ['"']⟩

mutual

/-- Model of compact `JSON.stringify(v)`. -/
def jsonStringify : Json → String
  | .null => "null"
  | .bool true => "true"
  | .bool false => "false"
  | .num i => intStr i
  | .str s => quoteStr s
  | .arr xs => "[" ++ String.intercalate "," (stringifyElems xs) ++ "]"
  | .obj kvs => "\x7b" ++ String.intercalate "," (stringifyMembers kvs) ++ "\x7d"

def stringifyElems : List Json → List String
  | [] => []
  | v :: rest => jsonStringify v :: stringifyElems rest

def stringifyMembers : List (String × Json) → List String
  | [] => []
  | (k, v) :: rest => (quoteStr k ++ ":" ++ jsonStringify v) :: stringifyMembers rest

end

def nSpaces (n : Nat) : String := ⟨List.replicate n ' '⟩

mutual

/-- Model of `JSON.stringify(v, null, 2)` at nesting indentation `ind`:
composite values are laid out one item per line, indented two further
spaces. -/
def stringifyPrettyAux (ind : Nat) : Json → String
  | .null => "null"
  | .bool true => "true"
  | .bool false => "false"
  | .num i => intStr i
  | .str s => quoteStr s
  | .arr [] => "[]"
  | .arr (x :: xs) =>
      "[\n" ++ String.intercalate ",\n" (prettyElems ind (x :: xs)) ++
      "\n" ++ nSpaces ind ++ "]"
  | .obj [] => "\x7b\x7d"
  | .obj (kv :: kvs) =>
      "\x7b\n" ++ String.intercalate ",\n" (prettyMembers ind (kv :: kvs)) ++
      "\n" ++ nSpaces ind ++ "\x7d"

def prettyElems (ind : Nat) : List Json → List String
  | [] => []
  | v :: rest =>
      (nSpaces (ind + 2) ++ stringifyPrettyAux (ind + 2) v) :: prettyElems ind rest

def prettyMembers (ind : Nat) : List (String × Json) → List String
  | [] => []
  | (k, v) :: rest =>
      (nSpaces (ind + 2) ++ quoteStr k ++ ": " ++ stringifyPrettyAux (ind + 2) v) ::
      prettyMembers ind rest

end

/-- Model of `JSON.stringify(v, null, 2)`, as used for tool-result
content text. -/
def stringifyPretty (v : Json) : String := stringifyPrettyAux 0 v

/-! ## JSON.parse

A recursive-descent parser for the JSON subset described at the top of
the file. The fuel argument strictly decreases on every nested parse; the
top-level entry point supplies `length + 1` fuel, which is enough because
every nesting level consumes at least one character. -/

/-- Skip JSON whitespace. -/
def skipWs : List Char → List Char
  | c :: cs => if c = ' ' ∨ c = '\n' ∨ c = '\t' ∨ c = '\r' then skipWs cs else c :: cs
  | [] => []

/-- Value of a decimal digit character, `none` for non-digits. -/
def digitVal (c : Char) : Option Nat :=
  if '0' ≤ c ∧ c ≤ '9' then some (c.toNat - 48) else none

/-- Consume a maximal run of decimal digits, accumulating their value. -/
def parseDigitsAux : List Char → Nat → Nat × List Char
  | [], acc => (acc, [])
  | c :: cs, acc =>
    match digitVal c with
    | some d => parseDigitsAux cs (acc * 10 + d)
    | none => (acc, c :: cs)

/-- Parse a non-empty run of decimal digits. -/
def parseNat (cs : List Char) : Option (Nat × List Char) :=
  match cs with
  | c :: _ => if (digitVal c).isSome then some (parseDigitsAux cs 0) else none
  | [] => none

/-- Parse an integer JSON number (optional minus sign, then digits).
Fractional parts and exponents are outside the modelled subset. -/
def parseNumber : List Char → Option (Int × List Char)
  | '-' :: cs => (parseNat cs).map (fun p => (-(p.1 : Int), p.2))
  | cs => (parseNat cs).map (fun p => ((p.1 : Int), p.2))

/-- The character denoted by a one-character JSON string escape. -/
def escChar (e : Char) : Option Char :=
  List.lookup e
    [('"', '"'), ('\\', '\\'), ('/', '/'), ('n', '\n'), ('t', '\t'),
     ('r', '\r'), ('b', '\x08'), ('f', '\x0c')]

/-- Parse the body of a string literal after the opening quote, up to and
including the closing quote (`\uXXXX` escapes are outside the modelled
subset). -/
def parseStringBody : List Char → Option (String × List Char)
  | [] => none
  | '\\' :: e :: r =>
    match escChar e with
    | some c => (parseStringBody r).map (fun p => (⟨c :: p.1.data⟩, p.2))
    | none => none
  | '"' :: r => some ("", r)
  | c :: r => (parseStringBody r).map (fun p => (⟨c :: p.1.data⟩, p.2))

mutual

/-- Parse one JSON value. -/
def parseValue : Nat → List Char → Option (Json × List Char)
  | 0, _ => none
  | fuel + 1, s =>
    match skipWs s with
    | 'n' :: 'u' :: 'l' :: 'l' :: r => some (.null, r)
    | 't' :: 'r' :: 'u' :: 'e' :: r => some (.bool true, r)
    | 'f' :: 'a' :: 'l' :: 's' :: 'e' :: r => some (.bool false, r)
    | '"' :: r => (parseStringBody r).map (fun p => (Json.str p.1, p.2))
    | '\x7b' :: r =>
      (match skipWs r with
       | '\x7d' :: r2 => some (Json.obj [], r2)
       | _ => (parseMembers fuel r).map (fun p => (Json.obj p.1, p.2)))
    | '[' :: r =>
      (match skipWs r with
       | ']' :: r2 => some (Json.arr [], r2)
       | _ => (parseElems fuel r).map (fun p => (Json.arr p.1, p.2)))
    | r => (parseNumber r).map (fun p => (Json.num p.1, p.2))

/-- Parse the members of a non-empty object, up to and including the
closing brace. -/
def parseMembers : Nat → List Char → Option (List (String × Json) × List Char)
  | 0, _ => none
  | fuel + 1, s =>
    match skipWs s with
    | '"' :: r =>
      match parseStringBody r with
      | none => none
      | some (k, r2) =>
        match skipWs r2 with
        | ':' :: r3 =>
          match parseValue fuel r3 with
          | none => none
          | some (v, r4) =>
            match skipWs r4 with
            | ',' :: r5 => (parseMembers fuel r5).map (fun p => ((k, v) :: p.1, p.2))
            | '\x7d' :: r5 => some ([(k, v)], r5)
            | _ => none
        | _ => none
    | _ => none

/-- Parse the elements of a non-empty array, up to and including the
closing bracket. -/
def parseElems : Nat → List Char → Option (List Json × List Char)
  | 0, _ => none
  | fuel + 1, s =>
    match parseValue fuel s with
    | none => none
    | some (v, r) =>
      match skipWs r with
      | ',' :: r2 => (parseElems fuel r2).map (fun p => (v :: p.1, p.2))
      | ']' :: r2 => some ([v], r2)
      | _ => none

end

/-- Model of `JSON.parse` (for the subset described above): parse one
value and require only whitespace to remain; `none` models a thrown
`SyntaxError`. -/
def jsonParse (s : String) : Option Json :=
  match parseValue (s.data.length + 1) s.data with
  | some (v, r) => if skipWs r = [] then some v else none
  | none => none

/-! ## Base64 (Node `Buffer`)

`b64EncodeBytes` models `Buffer.from(s).toString('base64')`;
`b64DecodeBytes` models the lenient decoder behind
`Buffer.from(s, 'base64')`, which ignores characters outside the base64
alphabet (accepting the url-safe variants `-` and `_`) and drops an
incomplete trailing quantum of one character. -/

def b64AlphabetChars : List Char :=
  "ABCDEFGHIJKLMNOPQRSTUVWXYZabcdefghijklmnopqrstuvwxyz0123456789+/".data

/-- The base64 character for a 6-bit value. -/
def b64Char (v : Nat) : Char := b64AlphabetChars.getD v 'A'

/-- The 6-bit value of a base64 character, `none` for characters outside
the alphabet (Node also accepts the url-safe `-` and `_`). -/
def b64CharVal (c : Char) : Option Nat :=
  if c = '-' then some 62
  else if c = '_' then some 63
  else b64AlphabetChars.findIdx? (· = c)

/-- Encode a byte list as base64 with padding. -/
def b64EncodeBytes : List Nat → List Char
  | [] => []
  | [a] => [b64Char (a / 4), b64Char (a % 4 * 16), '=', '=']
  | [a, b] => [b64Char (a / 4), b64Char (a % 4 * 16 + b / 16), b64Char (b % 16 * 4), '=']
  | a :: b :: c :: rest =>
      b64Char (a / 4) :: b64Char (a % 4 * 16 + b / 16) ::
      b64Char (b % 16 * 4 + c / 64) :: b64Char (c % 64) :: b64EncodeBytes rest

/-- Reassemble bytes from a list of 6-bit values (a final quantum of two
or three values yields one or two bytes; a lone value is dropped). -/
def b64DecodeVals : List Nat → List Nat
  | w :: x :: y :: z :: rest =>
      (w * 4 + x / 16) :: (x % 16 * 16 + y / 4) :: (y % 4 * 64 + z) :: b64DecodeVals rest
  | [w, x, y] => [w * 4 + x / 16, x % 16 * 16 + y / 4]
  | [w, x] => [w * 4 + x / 16]
  | _ => []

/-- Lenient base64 decoding of a character list to bytes. -/
def b64DecodeBytes (s : List Char) : List Nat :=
  b64DecodeVals (s.filterMap b64CharVal)

/-! ## Bytes and strings

The byte strings the code pushes through `Buffer` are ASCII-only JSON
texts, for which UTF-8 encoding/decoding is the identity on character
codes. -/

/-- Model of `Buffer.from(s)` (UTF-8 bytes) for ASCII content. -/
def strToBytes (s : String) : List Nat := s.data.map Char.toNat

/-- Model of `buf.toString('utf-8')` for ASCII content. -/
def bytesToStr (bs : List Nat) : String := ⟨bs.map Char.ofNat⟩

/-! ## The pagination-cursor codec (src/tools/ct.ts) -/

/-- `Buffer.from(JSON.stringify(\x7b offset: nextOffset \x7d)).toString('base64')`
(ct.ts lines 195-197). -/
def encodeCursor (offset : Int) : String :=
  ⟨b64EncodeBytes (strToBytes (jsonStringify (Json.obj [("offset", Json.num offset)])))⟩

/-- Result of the cursor-decoding block of `ctSearch` (ct.ts lines
97-115): either the `catch` branch is taken (the tool reports
`INVALID_INPUT`), or execution proceeds with a decoded offset. -/
inductive CursorParse where
  | fail : CursorParse
  | proceed : Int → CursorParse

/-- `offset = parsed.offset ?? 0` (ct.ts line 103). Accessing `.offset`
on `null` throws (caught by the surrounding `catch`); a missing or `null`
field is defaulted to `0` by `??`; any other parse result is a boxed
primitive or object whose `offset` property is `undefined`, likewise
defaulted to `0`. A present non-numeric `offset` field is coerced here
(such a value only reaches the later `slice` call; no modelled behaviour
depends on this case). -/
def jsOffsetField : Json → CursorParse
  | .null => .fail
  | .obj kvs =>
    match kvs.lookup "offset" with
    | some (.num i) => .proceed i
    | some .null => .proceed 0
    | some _ => .proceed 0
    | none => .proceed 0
  | _ => .proceed 0

/-- The cursor-decoding block of `ctSearch` (ct.ts lines 98-115):
base64-decode, UTF-8-decode, `JSON.parse`, then read `offset ?? 0`;
any exception is caught and reported as failure. -/
def decodeCursor (cursor : String) : CursorParse :=
  match jsonParse (bytesToStr (b64DecodeBytes cursor.data)) with
  | none => .fail
  | some v => jsOffsetField v

/-! ## The response envelope (src/types.ts) -/

/-- The closed error-code taxonomy of `src/types.ts`. -/
inductive ErrorCode where
  | INVALID_INPUT | UPSTREAM_ERROR | RATE_LIMITED | TIMEOUT | PARSE_ERROR | INTERNAL_ERROR
  deriving DecidableEq

/-- The `error` member of an error envelope. -/
structure ErrorInfo where
  code : ErrorCode
  message : String
  details : Json

/-- `meta.pagination`; `next_cursor` is `none` for JSON `null`. -/
structure Pagin where
  next_cursor : Option String
  deriving DecidableEq

/-- `meta` of a success envelope (optional fields are `none` when the
code leaves them out). -/
structure RespMeta where
  source : Option String
  retrieved_at : String
  pagin : Option Pagin
  warnings : Option (List String)

/-- `Response<T>` of `src/types.ts`: a success envelope or an error
envelope. -/
inductive Response (T : Type) where
  | success : T → RespMeta → Response T
  | failure : ErrorInfo → (retrieved_at : String) → Response T

/-- The error code of an envelope, `none` on success. -/
def Response.errorCode {T : Type} : Response T → Option ErrorCode
  | .success _ _ => none
  | .failure e _ => some e.code

def Response.isOk {T : Type} : Response T → Bool
  | .success _ _ => true
  | .failure _ _ => false

/-! ## Server configuration (src/config.ts) -/

structure ServerConfig where
  defaultResolver : String
  requestTimeoutMs : Nat
  httpPort : Nat
  logLevel : String

/-! ## The outcome of the single outbound fetch call

Each adapter performs exactly one `await fetch(...)` inside `try`. The
environment decides its outcome: the abort controller fires
(`AbortError`), some other error is thrown (its `.message` recorded), or
a response arrives, in which case reading the body can itself fail
(`body = none`). -/

structure FetchResponse where
  status : Nat
  body : Option String

inductive FetchOutcome where
  | abort
  | failure : (msg : String) → FetchOutcome
  | response : FetchResponse → FetchOutcome

/-- `response.ok`: status in the inclusive range 200-299. -/
def statusOk (s : Nat) : Bool := 200 ≤ s ∧ s ≤ 299

/-! ## Input validation (zod schemas)

Models of `safeParse` for the three input schemas. A failed parse yields
the list of issue messages; the adapters join them with `", "`. The
custom messages (`'Domain is required'`, `'Invalid domain format'`,
`'Invalid DNS name format'`, `'Invalid resolver IP address'`) are the
ones declared in the schemas; the texts of zod's built-in issues
(missing/wrong-type fields, range violations) are abbreviated here - no
verified claim depends on them. -/

/-- Split a character list at every occurrence of `sep` (the semantics of
`String.prototype.split` with a one-character separator: an empty input
yields one empty part, a leading/trailing separator an empty part). -/
def splitChar (sep : Char) : List Char → List (List Char)
  | [] => [[]]
  | c :: rest =>
    match splitChar sep rest with
    | h :: t => if c = sep then [] :: h :: t else (c :: h) :: t
    | [] => if c = sep then [[], []] else [[c]]

/-- `s.split(sep)` for a one-character separator, as strings. -/
def splitStr (sep : Char) (s : String) : List String :=
  (splitChar sep s.data).map (fun l => ⟨l⟩)

def isWsChar (c : Char) : Bool := c = ' ' || c = '\n' || c = '\t' || c = '\r'

/-- `s.trim()` (for the ASCII whitespace the code can meet). -/
def jsTrim (s : String) : String :=
  ⟨((s.data.dropWhile isWsChar).reverse.dropWhile isWsChar).reverse⟩

/-- `s.toLowerCase()` (ASCII case mapping). -/
def strLower (s : String) : String := ⟨s.data.map Char.toLower⟩

def isAlnumChar (c : Char) : Bool := c.isAlpha || c.isDigit

/-- One label of the domain/name regexes:
`[a-zA-Z0-9](?:[a-zA-Z0-9-]\x7b0,61\x7d[a-zA-Z0-9])?` - first and last
character alphanumeric, up to 61 middle characters that may also be
hyphens. -/
def isHostLabel (l : List Char) : Bool :=
  match l with
  | [] => false
  | c :: rest =>
    l.length ≤ 63 && isAlnumChar c &&
    (match rest.getLast? with | none => true | some d => isAlnumChar d) &&
    rest.dropLast.all (fun m => isAlnumChar m || m = '-')

/-- The trailing `[a-zA-Z]\x7b2,\x7d` of the domain regex. -/
def isTldPart (l : List Char) : Bool := 2 ≤ l.length && l.all Char.isAlpha

/-- The `domain` regex of `rdapInputSchema` and `ctInputSchema`:
one or more dot-terminated labels followed by an alphabetic TLD. -/
def isValidDomain (s : String) : Bool :=
  let parts := splitChar '.' s.data
  2 ≤ parts.length && parts.dropLast.all isHostLabel &&
  isTldPart (parts.getLastD [])

/-- The `name` regex of `dnsInputSchema`: zero or more dot-terminated
labels followed by a final label (so: every dot-separated part is a
label). -/
def isValidDnsName (s : String) : Bool :=
  (splitChar '.' s.data).all isHostLabel

/-- The `resolver` regex of `dnsInputSchema`:
`^(?:\d\x7b1,3\x7d\.)\x7b3\x7d\d\x7b1,3\x7d$`. -/
def isValidResolverIp (s : String) : Bool :=
  let parts := splitChar '.' s.data
  parts.length = 4 &&
  parts.all (fun p => 1 ≤ p.length && p.length ≤ 3 && p.all Char.isDigit)

def errsOf {α : Type} : Except (List String) α → List String
  | .error es => es
  | .ok _ => []

/-! ## ct_search (src/tools/ct.ts) -/

structure CtParsed where
  domain : String
  limit : Nat
  cursor : Option String

/-- Model of `ctInputSchema.safeParse` followed by
`validation.data.cursor ?? null` (so a missing cursor and a `null` cursor
are both `none`). The schema: `domain` a string matching the domain
regex, `limit` an optional integer in 1..1000 defaulting to 100,
`cursor` an optional nullable string. -/
def ctValidate (input : Json) : Except (List String) CtParsed :=
  let domRes : Except (List String) String :=
    match jLookup input "domain" with
    | some (.str s) =>
      if s = "" then .error ["Domain is required", "Invalid domain format"]
      else if isValidDomain s then .ok s else .error ["Invalid domain format"]
    | some _ => .error ["Expected string, received other"]
    | none => .error ["Required"]
  let limRes : Except (List String) Nat :=
    match jLookup input "limit" with
    | none => .ok 100
    | some (.num i) =>
      if 1 ≤ i ∧ i ≤ 1000 then .ok i.toNat
      else .error ["Limit out of range"]
    | some _ => .error ["Expected number, received other"]
  let curRes : Except (List String) (Option String) :=
    match jLookup input "cursor" with
    | none => .ok none
    | some .null => .ok none
    | some (.str s) => .ok (some s)
    | some _ => .error ["Expected string, received other"]
  match domRes, limRes, curRes with
  | .ok d, .ok l, .ok c => .ok ⟨d, l, c⟩
  | d, l, c => .error (errsOf d ++ errsOf l ++ errsOf c)

/-- The fields copied by `transformCertificate` (ct.ts lines 248-260). -/
def ctFieldNames : List String :=
  ["id", "issuer_ca_id", "issuer_name", "common_name", "name_value",
   "not_before", "not_after", "serial_number", "entry_timestamp"]

/-- `transformCertificate`: copies the nine certificate fields. Property
reads on a `null` entry throw (caught by the outer `catch` as
`INTERNAL_ERROR`); reads on another non-object yield `undefined` for every
field, which serialization later omits. -/
def transformCertificate : Json → Except String Json
  | .null => .error "Cannot read properties of null"
  | .obj kvs => .ok (.obj (ctFieldNames.filterMap fun f => (kvs.lookup f).map fun v => (f, v)))
  | _ => .ok (.obj [])

/-- `Array.prototype.slice` index clamping (`ToIntegerOrInfinity` then
clamp): a negative index counts from the end. -/
def jsSliceIdx (len : Nat) (i : Int) : Nat :=
  if i < 0 then ((len : Int) + i).toNat else min i.toNat len

/-- `xs.slice(start, stop)`. -/
def jsSlice (xs : List Json) (start stop : Int) : List Json :=
  (xs.take (jsSliceIdx xs.length stop)).drop (jsSliceIdx xs.length start)

structure CtData where
  domain : String
  certificates : List Json
  total_returned : Nat

/-- The offset a validated input's cursor decodes to: an absent (or
`null`) cursor means offset 0 without invoking the codec (ct.ts lines
97-98); otherwise the decoding block runs. -/
def ctCursorOf (p : CtParsed) : CursorParse :=
  match p.cursor with
  | none => .proceed 0
  | some c => decodeCursor c

/-- `ctSearch` (ct.ts lines 75-243). The `fetch` outcome is explicit;
`now` is the `new Date().toISOString()` taken on entry. -/
def ctSearch (cfg : ServerConfig) (now : String) (outcome : FetchOutcome) (input : Json) :
    Response CtData :=
  match ctValidate input with
  | .error msgs =>
      .failure ⟨.INVALID_INPUT, String.intercalate ", " msgs,
        Json.obj [("errors", Json.arr (msgs.map Json.str))]⟩ now
  | .ok p =>
    match ctCursorOf p with
    | .fail => .failure ⟨.INVALID_INPUT, "Invalid pagination cursor", Json.obj []⟩ now
    | .proceed offset =>
      match outcome with
      | .abort =>
          .failure ⟨.TIMEOUT,
            "crt.sh query timed out. The service may be slow - please try again.",
            Json.obj [("timeout_ms", Json.num (max cfg.requestTimeoutMs 30000))]⟩ now
      | .failure msg =>
          .failure ⟨.INTERNAL_ERROR, msg,
            Json.obj [("error", Json.str ("Error: " ++ msg))]⟩ now
      | .response r =>
        if ¬ statusOk r.status then
          if r.status = 429 then
            .failure ⟨.RATE_LIMITED, "crt.sh rate limit exceeded. Please try again later.",
              Json.obj [("status", Json.num r.status)]⟩ now
          else
            .failure ⟨.UPSTREAM_ERROR,
              "crt.sh query failed with status " ++ intStr r.status,
              Json.obj [("status", Json.num r.status)]⟩ now
        else
          match r.body with
          | none =>
              .failure ⟨.PARSE_ERROR, "Failed to parse crt.sh response as JSON",
                Json.obj []⟩ now
          | some text =>
            match (if text = "" ∨ jsTrim text = "" then some (Json.arr []) else jsonParse text) with
            | none =>
                .failure ⟨.PARSE_ERROR, "Failed to parse crt.sh response as JSON",
                  Json.obj []⟩ now
            | some (Json.arr rawData) =>
              match (jsSlice rawData offset (offset + p.limit)).mapM transformCertificate with
              | .error m =>
                  .failure ⟨.INTERNAL_ERROR, m,
                    Json.obj [("error", Json.str ("TypeError: " ++ m))]⟩ now
              | .ok certificates =>
                let nextOffset := offset + (p.limit : Int)
                let nextCursor :=
                  if nextOffset < (rawData.length : Int)
                  then some (encodeCursor nextOffset) else none
                let warnings :=
                  if certificates.length = 0 ∧ offset = 0
                  then ["No certificates found for " ++ p.domain] else []
                .success ⟨p.domain, certificates, certificates.length⟩
                  ⟨some "crt.sh", now, some ⟨nextCursor⟩, some warnings⟩
            | some _ =>
              -- the `CrtShEntry[]` cast is a lie for non-array JSON: the
              -- `.slice`/`.map` chain throws a TypeError, caught below
              .failure ⟨.INTERNAL_ERROR, "rawData.slice is not a function",
                Json.obj [("error", Json.str "TypeError: rawData.slice is not a function")]⟩ now

/-! ## dns_query (src/tools/dns.ts) -/

inductive DnsRecordType where
  | A | AAAA | CNAME | TXT | MX | NS | SOA
  deriving DecidableEq

def dnsTypeOfString : String → Option DnsRecordType
  | "A" => some .A
  | "AAAA" => some .AAAA
  | "CNAME" => some .CNAME
  | "TXT" => some .TXT
  | "MX" => some .MX
  | "NS" => some .NS
  | "SOA" => some .SOA
  | _ => none

def dnsTypeToString : DnsRecordType → String
  | .A => "A" | .AAAA => "AAAA" | .CNAME => "CNAME" | .TXT => "TXT"
  | .MX => "MX" | .NS => "NS" | .SOA => "SOA"

/-- `DNS_TYPE_MAP`. -/
def dnsTypeNum : DnsRecordType → Nat
  | .A => 1 | .AAAA => 28 | .CNAME => 5 | .TXT => 16 | .MX => 15 | .NS => 2 | .SOA => 6

/-- `DNS_TYPE_REVERSE`. -/
def dnsTypeReverse : Int → Option DnsRecordType
  | 1 => some .A | 28 => some .AAAA | 5 => some .CNAME | 16 => some .TXT
  | 15 => some .MX | 2 => some .NS | 6 => some .SOA | _ => none

structure DnsParsed where
  name : String
  type : DnsRecordType
  resolver : Option String

/-- Model of `dnsInputSchema.safeParse`: `name` a string matching the DNS
name regex, `type` one of the seven record-type strings, `resolver` an
optional string matching the IPv4 regex (absent means `none`; `null` is
rejected by `.optional()`). -/
def dnsValidate (input : Json) : Except (List String) DnsParsed :=
  let nameRes : Except (List String) String :=
    match jLookup input "name" with
    | some (.str s) =>
      if s = "" then .error ["Name is required", "Invalid DNS name format"]
      else if isValidDnsName s then .ok s else .error ["Invalid DNS name format"]
    | some _ => .error ["Expected string, received other"]
    | none => .error ["Required"]
  let typeRes : Except (List String) DnsRecordType :=
    match jLookup input "type" with
    | some (.str s) =>
      (match dnsTypeOfString s with
       | some t => .ok t
       | none => .error ["Invalid enum value"])
    | some _ => .error ["Expected enum value"]
    | none => .error ["Required"]
  let resolverRes : Except (List String) (Option String) :=
    match jLookup input "resolver" with
    | none => .ok none
    | some (.str s) =>
      if isValidResolverIp s then .ok (some s) else .error ["Invalid resolver IP address"]
    | some _ => .error ["Expected string, received other"]
  match nameRes, typeRes, resolverRes with
  | .ok n, .ok t, .ok r => .ok ⟨n, t, r⟩
  | n, t, r => .error (errsOf n ++ errsOf t ++ errsOf r)

/-- `DOH_ENDPOINTS` (dns.ts lines 90-96). -/
def DOH_ENDPOINTS : List (String × String) :=
  [("8.8.8.8", "https://dns.google/resolve"),
   ("8.8.4.4", "https://dns.google/resolve"),
   ("1.1.1.1", "https://cloudflare-dns.com/dns-query"),
   ("1.0.0.1", "https://cloudflare-dns.com/dns-query"),
   ("9.9.9.9", "https://dns.quad9.net/dns-query")]

/-- `DOH_ENDPOINTS[resolver] ?? DOH_ENDPOINTS['8.8.8.8'] ?? 'https://dns.google/resolve'`
(dns.ts line 124). -/
def dohEndpointFor (resolver : String) : String :=
  (((DOH_ENDPOINTS.lookup resolver).orElse
    fun _ => DOH_ENDPOINTS.lookup "8.8.8.8").getD "https://dns.google/resolve")

/-- `parseInt(s, 10)`: skip leading whitespace, optional sign, a
non-empty run of decimal digits (trailing characters ignored); `none`
models `NaN`. -/
def jsParseInt (s : String) : Option Int :=
  match skipWs s.data with
  | '-' :: rest => (parseNat rest).map fun p => -(p.1 : Int)
  | '+' :: rest => (parseNat rest).map fun p => (p.1 : Int)
  | cs => (parseNat cs).map fun p => (p.1 : Int)

/-- `s.replace(/\.$/, '')`. -/
def dropTrailingDot (s : String) : String :=
  if s.data.getLast? = some '.' then ⟨s.data.dropLast⟩ else s

/-- `s.replace(/^"(.*)"$/, '$1')`: strip surrounding quotes when the
whole string is a quote-delimited literal (`.` does not match a newline,
so multi-line content is left untouched). -/
def stripTxtQuotes (s : String) : String :=
  if 2 ≤ s.data.length ∧ s.data.head? = some '"' ∧ s.data.getLast? = some '"' ∧
      ¬ (s.data.drop 1).dropLast.contains '\n'
  then ⟨(s.data.drop 1).dropLast⟩ else s

/-- The `data` member of a DNS record after `parseRecordData`. `none`
integers model `NaN` from `parseInt`; `raw` carries a non-string upstream
`data` value through the `default` branch unchanged. -/
inductive RecordData where
  | plain : String → RecordData
  | mx : (priority : Option Int) → (exchange : String) → RecordData
  | soa : (mname rname : String) →
      (serial refresh retr expire minimum : Option Int) → RecordData
  | raw : Option Json → RecordData

/-- `parseRecordData` (dns.ts lines 285-324) on a string `data` value. -/
def parseRecordData (t : DnsRecordType) (data : String) : RecordData :=
  match t with
  | .MX =>
    let parts := splitStr ' ' data
    .mx (jsParseInt (parts.getD 0 "0"))
        (dropTrailingDot (String.intercalate " " (parts.drop 1)))
  | .SOA =>
    let parts := splitStr ' ' data
    .soa (dropTrailingDot (parts.getD 0 "")) (dropTrailingDot (parts.getD 1 ""))
         (jsParseInt (parts.getD 2 "0")) (jsParseInt (parts.getD 3 "0"))
         (jsParseInt (parts.getD 4 "0")) (jsParseInt (parts.getD 5 "0"))
         (jsParseInt (parts.getD 6 "0"))
  | .TXT => .plain (stripTxtQuotes data)
  | .CNAME => .plain (dropTrailingDot data)
  | .NS => .plain (dropTrailingDot data)
  | _ => .plain data

/-- Dispatch on the runtime type of `answer.data`: a string goes through
`parseRecordData`; for the `default` branch (A/AAAA) any value is
returned unchanged; the other branches call a string method on it and
throw. -/
def parseAnswerData (t : DnsRecordType) (dataField : Option Json) : Except String RecordData :=
  match dataField with
  | some (.str s) => .ok (parseRecordData t s)
  | other =>
    match t with
    | .A | .AAAA => .ok (.raw other)
    | _ => .error "data.split is not a function"

structure DnsRecord where
  name : Option Json
  type : DnsRecordType
  ttl : Option Json
  data : RecordData

/-- `parseRecords` (dns.ts lines 255-280): keep the answers whose numeric
`type` maps back to the requested type, and parse each one's `data`. A
`null` answer throws on the `answer.type` read. (The source filters the
whole list before mapping it; this model interleaves the two passes,
which can change only *which* error message a multiply-malformed answer
list produces.) -/
def parseRecords (answers : List Json) (requested : DnsRecordType) :
    Except String (List DnsRecord) :=
  match answers with
  | [] => .ok []
  | a :: rest =>
    match a with
    | .null => .error "Cannot read properties of null"
    | _ =>
      let rt := match jLookup a "type" with
        | some (.num k) => dnsTypeReverse k
        | _ => none
      if rt = some requested then do
        let d ← parseAnswerData requested (jLookup a "data")
        let tail ← parseRecords rest requested
        .ok (⟨jLookup a "name", requested, jLookup a "TTL", d⟩ :: tail)
      else parseRecords rest requested

structure DnsData where
  name : String
  type : DnsRecordType
  resolver : String
  records : List DnsRecord

/-- Template-literal display of a JSON value (or `undefined`), used for
`DNS error code $\x7b...\x7d`; array/object display is abbreviated - no
verified claim depends on it. -/
def jsDisplayOpt : Option Json → String
  | none => "undefined"
  | some .null => "null"
  | some (.bool true) => "true"
  | some (.bool false) => "false"
  | some (.num i) => intStr i
  | some (.str s) => s
  | some (.arr _) => "[array]"
  | some (.obj _) => "[object Object]"

/-- `statusMessages[status] ?? 'DNS error code ...'` (dns.ts lines
186-193). -/
def dnsStatusMessage (st : Option Json) : String :=
  match st with
  | some (.num 1) => "Format error"
  | some (.num 2) => "Server failure"
  | some (.num 3) => "Non-existent domain (NXDOMAIN)"
  | some (.num 4) => "Not implemented"
  | some (.num 5) => "Query refused"
  | v => "DNS error code " ++ jsDisplayOpt v

/-- `dnsQuery` (dns.ts lines 101-250). -/
def dnsQuery (cfg : ServerConfig) (now : String) (outcome : FetchOutcome) (input : Json) :
    Response DnsData :=
  match dnsValidate input with
  | .error msgs =>
      .failure ⟨.INVALID_INPUT, String.intercalate ", " msgs,
        Json.obj [("errors", Json.arr (msgs.map Json.str))]⟩ now
  | .ok p =>
    let resolver := p.resolver.getD cfg.defaultResolver
    let dohEndpoint := dohEndpointFor resolver
    match outcome with
    | .abort =>
        .failure ⟨.TIMEOUT,
          "DNS query timed out after " ++ intStr cfg.requestTimeoutMs ++ "ms",
          Json.obj [("timeout_ms", Json.num cfg.requestTimeoutMs)]⟩ now
    | .failure msg =>
        .failure ⟨.INTERNAL_ERROR, msg,
          Json.obj [("error", Json.str ("Error: " ++ msg))]⟩ now
    | .response r =>
      if ¬ statusOk r.status then
        if r.status = 429 then
          .failure ⟨.RATE_LIMITED, "DNS resolver rate limit exceeded",
            Json.obj [("status", Json.num r.status), ("resolver", Json.str resolver)]⟩ now
        else
          .failure ⟨.UPSTREAM_ERROR,
            "DNS query failed with status " ++ intStr r.status,
            Json.obj [("status", Json.num r.status), ("resolver", Json.str resolver)]⟩ now
      else
        match r.body with
        | none =>
            .failure ⟨.PARSE_ERROR, "Failed to parse DNS response as JSON",
              Json.obj []⟩ now
        | some text =>
          match jsonParse text with
          | none =>
              .failure ⟨.PARSE_ERROR, "Failed to parse DNS response as JSON",
                Json.obj []⟩ now
          | some .null =>
              -- `dohData.Status` on a parsed `null` throws, caught below
              .failure ⟨.INTERNAL_ERROR, "Cannot read properties of null",
                Json.obj [("error", Json.str "TypeError: Cannot read properties of null")]⟩ now
          | some dohData =>
            match jLookup dohData "Status" with
            | some (.num 0) =>
              match
                (match jLookup dohData "Answer" with
                 | some (.arr xs) => Except.ok xs
                 | none => Except.ok []
                 | some .null => Except.ok []
                 | some _ => Except.error "answers.filter is not a function")
              with
              | .error m =>
                  .failure ⟨.INTERNAL_ERROR, m,
                    Json.obj [("error", Json.str ("TypeError: " ++ m))]⟩ now
              | .ok answers =>
                match parseRecords answers p.type with
                | .error m =>
                    .failure ⟨.INTERNAL_ERROR, m,
                      Json.obj [("error", Json.str ("TypeError: " ++ m))]⟩ now
                | .ok records =>
                  let warnings :=
                    if records.length = 0
                    then ["No " ++ dnsTypeToString p.type ++ " records found for " ++ p.name]
                    else []
                  .success ⟨p.name, p.type, resolver, records⟩
                    ⟨some dohEndpoint, now, none, some warnings⟩
            | st =>
                .failure ⟨.UPSTREAM_ERROR, dnsStatusMessage st,
                  Json.obj (match st with
                    | some v => [("dns_status", v)]
                    | none => [])⟩ now

/-! ## rdap_lookup (the rdap tool source) -/

/-- Model of `rdapInputSchema.safeParse`: a single `domain` field with
the same string/regex checks as `ctInputSchema`. -/
def rdapValidate (input : Json) : Except (List String) String :=
  match jLookup input "domain" with
  | some (.str s) =>
    if s = "" then .error ["Domain is required", "Invalid domain format"]
    else if isValidDomain s then .ok s else .error ["Invalid domain format"]
  | some _ => .error ["Expected string, received other"]
  | none => .error ["Required"]

mutual

/-- Total node count of a JSON value (computable; used only to produce a
fuel bound that dominates the recursion of `extractRegistrar`). -/
def jsonSize : Json → Nat
  | .arr xs => jsonSizeList xs + 1
  | .obj kvs => jsonSizeMembers kvs + 1
  | _ => 1

def jsonSizeList : List Json → Nat
  | [] => 0
  | v :: rest => jsonSize v + jsonSizeList rest + 1

def jsonSizeMembers : List (String × Json) → Nat
  | [] => 0
  | (_, v) :: rest => jsonSize v + jsonSizeMembers rest + 1

end

/-- Substring containment, for `roles.includes('registrar')` when
`roles` happens to be a string. -/
def strContains (hay needle : String) : Bool :=
  (List.range (hay.data.length + 1)).any
    (fun i => needle.data.isPrefixOf (hay.data.drop i))

/-- Scan a vcard field list for `field[0] === 'fn' &&
typeof field[3] === 'string'`; a `null` field throws on `field[0]`. -/
def scanVcardFields : List Json → Except String (Option String)
  | [] => .ok none
  | f :: rest =>
    match f with
    | .null => .error "Cannot read properties of null"
    | .arr xs =>
      (match xs.get? 0, xs.get? 3 with
       | some (.str "fn"), some (.str s) => .ok (some s)
       | _, _ => scanVcardFields rest)
    | _ => scanVcardFields rest

mutual

/-- `extractRegistrar` (recursive over nested `entities`). The fuel
strictly exceeds the nesting depth of the finite parsed value at every
call site, so the `0` case is unreachable; it is present only to make the
recursion structural. Exotic runtime types (a numeric `roles`, a
non-iterable `entities`) throw as in the source; a string `entities`
iterates to nothing. -/
def extractRegistrar (fuel : Nat) (entities? : Option Json) : Except String (Option Json) :=
  match fuel with
  | 0 => .ok none
  | fuel + 1 =>
    match entities? with
    | none => .ok none
    | some e =>
      if ¬ jsTruthy e then .ok none
      else match e with
        | .arr l => extractRegistrarList fuel l
        | .str _ => .ok none
        | _ => .error "entities is not iterable"

def extractRegistrarList (fuel : Nat) : List Json → Except String (Option Json)
  | [] => .ok none
  | ent :: rest =>
    match fuel with
    | 0 => .ok none
    | fuel + 1 =>
      match ent with
      | .null => .error "Cannot read properties of null"
      | _ => do
        let hasReg : Bool ←
          match jLookup ent "roles" with
          | some (.arr rs) =>
              pure (rs.any fun r => match r with | .str "registrar" => true | _ => false)
          | none => pure false
          | some .null => pure false
          | some (.str s) => pure (strContains s "registrar")
          | some _ => Except.error "roles.includes is not a function"
        let fromVcard : Option String ←
          if hasReg then
            match jLookup ent "vcardArray" with
            | some (.arr l2) =>
              (match l2.get? 1 with
               | some (.arr fields) => scanVcardFields fields
               | some (.str _) => pure none
               | some v => if jsTruthy v then Except.error "vcard is not iterable" else pure none
               | none => pure none)
            | _ => pure none
          else pure none
        match fromVcard with
        | some s => .ok (some (.str s))
        | none =>
          let handleHit : Option Json :=
            if hasReg then
              match jLookup ent "handle" with
              | some h => if jsTruthy h then some h else none
              | none => none
            else none
          match handleHit with
          | some h => .ok (some h)
          | none => do
            let nested ← extractRegistrar fuel (jLookup ent "entities")
            match nested with
            | some r => .ok (some r)
            | none => extractRegistrarList fuel rest

end

/-- `findEventDate`: first event whose lower-cased `eventAction` equals
the (already lower-case) action, returning its `eventDate ?? null`
(`none` models `null`). A non-string non-null `eventAction` throws on
`.toLowerCase()`; a `null` event throws on the property read. -/
def findEventDate (events : List Json) (action : String) : Except String (Option Json) :=
  match events with
  | [] => .ok none
  | e :: rest =>
    match e with
    | .null => .error "Cannot read properties of null"
    | _ =>
      match jLookup e "eventAction" with
      | some (.str s) =>
        if strLower s = strLower action then
          .ok (match jLookup e "eventDate" with
               | some .null => none
               | none => none
               | some v => some v)
        else findEventDate rest action
      | none => findEventDate rest action
      | some .null => findEventDate rest action
      | some _ => .error "eventAction.toLowerCase is not a function"

/-- The nameserver extraction of `parseRdapResponse`: map `ldhName`,
keep truthy values, lower-case them (a truthy non-string would throw on
`.toLowerCase()`; the source runs the three passes over the whole list in
sequence, this model goes entry by entry, which can change only which
error message wins). -/
def extractNameservers : List Json → Except String (List String)
  | [] => .ok []
  | ns :: rest =>
    match ns with
    | .null => .error "Cannot read properties of null"
    | _ =>
      match jLookup ns "ldhName" with
      | some v =>
        if jsTruthy v then
          match v with
          | .str s => do
            let tail ← extractNameservers rest
            .ok (strLower s :: tail)
          | _ => .error "ldhName.toLowerCase is not a function"
        else extractNameservers rest
      | none => extractNameservers rest

structure RdapData where
  domain : String
  registrar : Option Json
  creation_date : Option Json
  expiration_date : Option Json
  updated_date : Option Json
  status : Json
  nameservers : List String

/-- `parseRdapResponse`: registrar from entities, dates from events,
`status ?? []`, nameservers. A parsed `null` body throws on the first
property read. -/
def parseRdapResponse (domain : String) (raw : Json) : Except String RdapData :=
  match raw with
  | .null => .error "Cannot read properties of null"
  | _ => do
    let registrar ← extractRegistrar (jsonSize raw + 1) (jLookup raw "entities")
    let events ←
      match jLookup raw "events" with
      | some (.arr l) => Except.ok l
      | none => Except.ok []
      | some .null => Except.ok []
      | some _ => Except.error "events.find is not a function"
    let creation ← findEventDate events "registration"
    let expiration ← findEventDate events "expiration"
    let updated ← findEventDate events "last changed"
    let status : Json :=
      match jLookup raw "status" with
      | some .null => .arr []
      | none => .arr []
      | some v => v
    let nameservers ←
      match jLookup raw "nameservers" with
      | some (.arr l) => extractNameservers l
      | none => Except.ok []
      | some .null => Except.ok []
      | some _ => Except.error "nameservers.map is not a function"
    .ok ⟨domain, registrar, creation, expiration, updated, status, nameservers⟩

/-- `rdapLookup` (lines 53-177 of the rdap tool source). -/
def rdapLookup (cfg : ServerConfig) (now : String) (outcome : FetchOutcome) (input : Json) :
    Response RdapData :=
  match rdapValidate input with
  | .error msgs =>
      .failure ⟨.INVALID_INPUT, String.intercalate ", " msgs,
        Json.obj [("errors", Json.arr (msgs.map Json.str))]⟩ now
  | .ok d =>
    let domain := strLower d
    match outcome with
    | .abort =>
        .failure ⟨.TIMEOUT,
          "RDAP query timed out after " ++ intStr cfg.requestTimeoutMs ++ "ms",
          Json.obj [("timeout_ms", Json.num cfg.requestTimeoutMs)]⟩ now
    | .failure msg =>
        .failure ⟨.INTERNAL_ERROR, msg,
          Json.obj [("error", Json.str ("Error: " ++ msg))]⟩ now
    | .response r =>
      if ¬ statusOk r.status then
        if r.status = 404 then
          .failure ⟨.UPSTREAM_ERROR, "Domain not found in RDAP: " ++ domain,
            Json.obj [("status", Json.num r.status), ("domain", Json.str domain)]⟩ now
        else if r.status = 429 then
          .failure ⟨.RATE_LIMITED, "RDAP server rate limit exceeded",
            Json.obj [("status", Json.num r.status)]⟩ now
        else
          .failure ⟨.UPSTREAM_ERROR,
            "RDAP query failed with status " ++ intStr r.status,
            Json.obj [("status", Json.num r.status)]⟩ now
      else
        match r.body with
        | none =>
            .failure ⟨.PARSE_ERROR, "Failed to parse RDAP response as JSON",
              Json.obj []⟩ now
        | some text =>
          match jsonParse text with
          | none =>
              .failure ⟨.PARSE_ERROR, "Failed to parse RDAP response as JSON",
                Json.obj []⟩ now
          | some raw =>
            match parseRdapResponse domain raw with
            | .error m =>
                .failure ⟨.INTERNAL_ERROR, m,
                  Json.obj [("error", Json.str ("TypeError: " ++ m))]⟩ now
            | .ok data =>
                .success data ⟨some "rdap-bootstrap.iana.org", now, none, some []⟩

/-! ## The tool registry (src/tools/index.ts and the three definitions) -/

structure ToolDefinition where
  name : String
  description : String
  inputSchema : Json

def rdapToolDefinition : ToolDefinition :=
  ⟨"rdap_lookup",
   "Query RDAP (Registration Data Access Protocol) for domain registration information including registrar, creation/expiry dates, nameservers, and status.",
   .obj [("type", .str "object"),
         ("properties", .obj
           [("domain", .obj [("type", .str "string"),
              ("description", .str "The domain name to look up (e.g., \"example.com\")")])]),
         ("required", .arr [.str "domain"])]⟩

def dnsToolDefinition : ToolDefinition :=
  ⟨"dns_query",
   "Perform DNS queries for various record types. Supports A, AAAA, CNAME, TXT, MX, NS, and SOA records.",
   .obj [("type", .str "object"),
         ("properties", .obj
           [("name", .obj [("type", .str "string"),
              ("description", .str "The DNS name to query (e.g., \"example.com\")")]),
            ("type", .obj [("type", .str "string"),
              ("enum", .arr [.str "A", .str "AAAA", .str "CNAME", .str "TXT",
                             .str "MX", .str "NS", .str "SOA"]),
              ("description", .str "The DNS record type to query")]),
            ("resolver", .obj [("type", .str "string"),
              ("description", .str "Optional custom DNS resolver IP (default: 8.8.8.8)")])]),
         ("required", .arr [.str "name", .str "type"])]⟩

def ctToolDefinition : ToolDefinition :=
  ⟨"ct_search",
   "Search Certificate Transparency logs for certificates issued for a domain. Uses crt.sh API to find historical and current certificates.",
   .obj [("type", .str "object"),
         ("properties", .obj
           [("domain", .obj [("type", .str "string"),
              ("description", .str "The domain to search for certificates (e.g., \"example.com\")")]),
            ("limit", .obj [("type", .str "number"),
              ("description", .str "Maximum number of certificates to return (1-1000, default: 100)")]),
            ("cursor", .obj [("type", .str "string"),
              ("description", .str "Pagination cursor for fetching more results"),
              ("nullable", .bool true)])]),
         ("required", .arr [.str "domain"])]⟩

/-- `allToolDefinitions` (src/tools/index.ts lines 272-276): the
registration order is rdap, dns, ct. -/
def allToolDefinitions : List ToolDefinition :=
  [rdapToolDefinition, dnsToolDefinition, ctToolDefinition]

def toolDefJson (t : ToolDefinition) : Json :=
  .obj [("name", .str t.name), ("description", .str t.description),
        ("inputSchema", t.inputSchema)]

/-! ## The stateless JSON-RPC dispatcher (the stateless http transport source)

The dispatcher `await`s one adapter call per `tools/call`; the promise
either resolves with an envelope (carried here already in serialized
`Json` form) or rejects. The `Adapters` record makes that collaborator
outcome explicit. -/

inductive ToolOutcome where
  | resolved : Json → ToolOutcome
  | thrown : (msg : String) → ToolOutcome

structure Adapters where
  rdap : Json → ToolOutcome
  dns : Json → ToolOutcome
  ct : Json → ToolOutcome

inductive RpcOutcome where
  | result : Json → RpcOutcome
  | rpcError : (code : Int) → (message : String) → RpcOutcome

/-- A JSON-RPC response frame before serialization; `id = none` models an
`undefined` id, which serialization omits. -/
structure JsonRpcResponse where
  id : Option Json
  outcome : RpcOutcome

/-- `args?.k`. -/
def optLookup (o : Option Json) (k : String) : Option Json :=
  o.bind (fun j => jLookup j k)

/-- Build a tool-input object literal: a field whose value is
`undefined` is equivalent to an absent field for the zod schemas. -/
def mkFieldObj (fields : List (String × Option Json)) : Json :=
  .obj (fields.filterMap fun f => f.2.map fun v => (f.1, v))

/-- The `initialize` result (stateless transport, lines 57-72). -/
def initializeResult : Json :=
  .obj [("protocolVersion", .str "2024-11-05"),
        ("capabilities", .obj [("tools", .obj [])]),
        ("serverInfo", .obj [("name", .str "dns-intel"), ("version", .str "1.0.0")])]

/-- The `tools/list` result. -/
def toolsListResult : Json :=
  .obj [("tools", .arr (allToolDefinitions.map toolDefJson))]

/-- Wrap a resolved envelope as
`\x7b content: [\x7b type: 'text', text: JSON.stringify(result, null, 2) \x7d] \x7d`. -/
def toolContentResult (res : Json) : Json :=
  .obj [("content", .arr [.obj [("type", .str "text"),
                                ("text", .str (stringifyPretty res))]])]

/-- The `switch (toolName)` of the `tools/call` branch: select an adapter
by name and invoke it on the input object built from `args?.<field>`
reads; `none` is the `default` branch (unknown tool). -/
def toolCallDispatch (adapters : Adapters) (params : Option Json) : Option ToolOutcome :=
  let toolName := params.bind (jLookup · "name")
  let args := params.bind (jLookup · "arguments")
  match toolName with
  | some (.str "rdap_lookup") =>
      some (adapters.rdap (mkFieldObj [("domain", optLookup args "domain")]))
  | some (.str "dns_query") =>
      some (adapters.dns (mkFieldObj
        [("name", optLookup args "name"), ("type", optLookup args "type"),
         ("resolver", optLookup args "resolver")]))
  | some (.str "ct_search") =>
      some (adapters.ct (mkFieldObj
        [("domain", optLookup args "domain"), ("limit", optLookup args "limit"),
         ("cursor", optLookup args "cursor")]))
  | _ => none

/-- `handleJsonRpcRequest` (stateless transport, lines 52-159): route the
three methods, dispatch `tools/call` on the tool name, convert a
rejection from the awaited adapter into `-32603` via the surrounding
`catch`. -/
def handleJsonRpcRequest (adapters : Adapters) (request : Json) : JsonRpcResponse :=
  let id := jLookup request "id"
  let method := jLookup request "method"
  let params := jLookup request "params"
  match method with
  | some (.str "initialize") => ⟨id, .result initializeResult⟩
  | some (.str "tools/list") => ⟨id, .result toolsListResult⟩
  | some (.str "tools/call") =>
    (match toolCallDispatch adapters params with
     | none => ⟨id, .rpcError (-32601)
         ("Unknown tool: " ++ jsDisplayOpt (params.bind (jLookup · "name")))⟩
     | some (.resolved res) => ⟨id, .result (toolContentResult res)⟩
     | some (.thrown m) => ⟨id, .rpcError (-32603) ("Internal error: " ++ m)⟩)
  | _ => ⟨id, .rpcError (-32601) ("Method not found: " ++ jsDisplayOpt method)⟩

/-- Serialize a response frame:
`\x7b jsonrpc: '2.0', id, result | error \x7d` (an `undefined` id is
omitted). -/
def rpcResponseJson (resp : JsonRpcResponse) : Json :=
  .obj ([("jsonrpc", Json.str "2.0")] ++
        (match resp.id with | some v => [("id", v)] | none => []) ++
        (match resp.outcome with
         | .result r => [("result", r)]
         | .rpcError c m =>
             [("error", .obj [("code", .num c), ("message", .str m)])]))

/-- `request.id || 0`. -/
def jsTruthyOr0 : Option Json → Json
  | some j => if jsTruthy j then j else .num 0
  | none => .num 0

/-- An HTTP reply of the stateless transport: status plus JSON body. -/
structure HttpReply where
  status : Nat
  body : Json

/-- `handleMcpRequest` (stateless transport, lines 232-262): parse the
body, check `jsonrpc === '2.0'`, dispatch, reply 200; a parse failure
(or the property read throwing on a parsed `null`) is caught and
converted to `-32700` with HTTP 500. `excMsg` is the thrown exception's
message (environment-specific text). -/
def handleMcpPost (adapters : Adapters) (excMsg : String) (body : String) : HttpReply :=
  let caught : HttpReply :=
    ⟨500, .obj [("jsonrpc", .str "2.0"), ("id", .num 0),
                ("error", .obj [("code", .num (-32700)),
                                ("message", .str ("Parse error: " ++ excMsg))])]⟩
  match jsonParse body with
  | none => caught
  | some .null => caught
  | some request =>
    match jLookup request "jsonrpc" with
    | some (.str "2.0") => ⟨200, rpcResponseJson (handleJsonRpcRequest adapters request)⟩
    | _ =>
      ⟨400, .obj [("jsonrpc", .str "2.0"), ("id", jsTruthyOr0 (jLookup request "id")),
                  ("error", .obj [("code", .num (-32600)),
                                  ("message", .str "Invalid Request: missing or invalid jsonrpc version")])]⟩

/-! ## The session table of the session transport (the streamable-http
transport source)

The module-level `sessions` map, the `/mcp` get-or-create step and the
`onclose` callback, as a state machine. Sessions themselves (a
transport+server pair) are abstracted to a numeric handle; `nextHandle`
mints a fresh handle per created session, so handles identify creation
events. `freshId` stands for the `randomUUID()` result of this request. -/

structure SessionState where
  table : List (String × Nat)
  nextHandle : Nat

/-- JS `Map.set`: replace in place or append. -/
def mapSet : List (String × Nat) → String → Nat → List (String × Nat)
  | [], k, v => [(k, v)]
  | (k', v') :: rest, k, v =>
    if k' = k then (k, v) :: rest else (k', v') :: mapSet rest k v

/-- JS `Map.delete`. -/
def mapDelete (k : String) (t : List (String × Nat)) : List (String × Nat) :=
  t.filter (fun p => ¬ p.1 = k)

inductive SessionReply where
  | notConfigured : SessionReply
  | delegated : (sessionId : String) → (handle : Nat) → (isNew : Bool) → SessionReply

/-- `handleMcpRequest` of the session transport (lines 33-70): look the
`mcp-session-id` header up in the table; on a miss, require the factory
(else 503), mint a fresh id, create and store a new session; finally
delegate the request to the selected session's transport. -/
def handleMcpSession (hasFactory : Bool) (freshId : String) (st : SessionState)
    (header : Option String) : SessionState × SessionReply :=
  let sess? := header.bind (fun sid => (st.table.lookup sid).map (fun h => (sid, h)))
  match sess? with
  | some (sid, h) => (st, .delegated sid h false)
  | none =>
    if hasFactory then
      (⟨mapSet st.table freshId st.nextHandle, st.nextHandle + 1⟩,
       .delegated freshId st.nextHandle true)
    else (st, .notConfigured)

/-- The `transport.onclose` callback: `sessions.delete(sessionId)`. -/
def closeSession (st : SessionState) (sid : String) : SessionState :=
  ⟨mapDelete sid st.table, st.nextHandle⟩

/-! ## The MCP-SDK tool-call handler of createServer -/

/-- The adapter collaborators as seen by the `CallToolRequestSchema`
handler: each resolves with an envelope (serialized form); the handler
itself has no `try`/`catch`, and the modelled adapters are total, so only
resolution is represented. `none` input models an absent `arguments`. -/
structure CallAdapters where
  rdap : Option Json → Json
  dns : Option Json → Json
  ct : Option Json → Json

/-- The inline envelope of the handler's `default` branch. -/
def unknownToolEnvelope (now name : String) : Json :=
  .obj [("ok", .bool false),
        ("error", .obj [("code", .str "INVALID_INPUT"),
                        ("message", .str ("Unknown tool: " ++ name)),
                        ("details", .obj [("available_tools",
                           .arr (allToolDefinitions.map (fun t => Json.str t.name)))])]),
        ("meta", .obj [("retrieved_at", .str now)])]

/-- The `CallToolRequestSchema` handler registered by `createServer`:
dispatch on the tool name, fall back to the `Unknown tool` envelope, and
always wrap the result as text content. -/
def createServerCallTool (adapters : CallAdapters) (now : String)
    (name : String) (args : Option Json) : Json :=
  let result : Json :=
    match name with
    | "rdap_lookup" => adapters.rdap args
    | "dns_query" => adapters.dns args
    | "ct_search" => adapters.ct args
    | _ => unknownToolEnvelope now name
  toolContentResult result

/-! ## Observation helpers for theorem statements -/

/-- The recorded `meta.pagination` of a success envelope. -/
def Response.pagin? {T : Type} : Response T → Option Pagin
  | .success _ m => m.pagin
  | .failure _ _ => none

/-- The recorded `meta.warnings` of a success envelope. -/
def Response.warningsOf {T : Type} : Response T → Option (List String)
  | .success _ m => m.warnings
  | .failure _ _ => none

/-- The `result.tools[*].name` values of a serialized JSON-RPC response
body. -/
def toolNamesOf (body : Json) : List Json :=
  match jLookup body "result" with
  | some r =>
    (match jLookup r "tools" with
     | some (.arr ts) => ts.filterMap (jLookup · "name")
     | _ => [])
  | none => []

/-- Whether a `method` value is one of the three dispatched JSON-RPC
methods. -/
def isKnownMethod : Option Json → Bool
  | some (.str "initialize") => true
  | some (.str "tools/list") => true
  | some (.str "tools/call") => true
  | _ => false

/-- A concrete adapter record for closed statements (the dispatcher's
`tools/list` and protocol-error paths never consult it). -/
def trivialAdapters : Adapters :=
  ⟨fun _ => .resolved .null, fun _ => .resolved .null, fun _ => .resolved .null⟩

/-- A concrete adapter record for the `createServer` handler, for closed
statements on its unknown-tool path. -/
def trivialCallAdapters : CallAdapters :=
  ⟨fun _ => .null, fun _ => .null, fun _ => .null⟩

/-- A concrete configuration (the `loadConfig` defaults) for closed
statements. -/
def sampleConfig : ServerConfig := ⟨"8.8.8.8", 10000, 8080, "info"⟩

/-! ## Helper lemmas -/


theorem digitVal_digitChar : ∀ d < 10, digitVal (digitChar d) = some d := by decide

theorem natDigits_head (n : Nat) :
    ∃ c cs, natDigits n = c :: cs ∧ ∃ d, d < 10 ∧ c = digitChar d := by
  rw [natDigits]
  by_cases h : n < 10
  · simp only [h, dif_pos]
    exact ⟨digitChar n, [], rfl, n, h, rfl⟩
  · simp only [h, dif_neg, not_false_iff]
    obtain ⟨c, cs, hcs, hd⟩ := natDigits_head (n / 10)
    exact ⟨c, cs ++ [digitChar (n % 10)], by rw [hcs]; rfl, hd⟩
  termination_by n
  decreasing_by exact Nat.div_lt_self (by omega) (by omega)

theorem parseDigitsAux_append (n : Nat) (rest : List Char) (acc : Nat) :
    parseDigitsAux (natDigits n ++ rest) acc =
      parseDigitsAux rest (acc * 10 ^ (natDigits n).length + n) := by
  rw [natDigits]
  by_cases h : n < 10
  · simp only [h, dif_pos, List.cons_append, List.nil_append, parseDigitsAux,
      digitVal_digitChar n h, List.length_cons, List.length_nil]
    norm_num
  · simp only [h, dif_neg, not_false_iff, List.append_assoc, List.cons_append,
      List.nil_append]
    rw [parseDigitsAux_append (n / 10) (digitChar (n % 10) :: rest) acc]
    simp only [parseDigitsAux, digitVal_digitChar (n % 10) (Nat.mod_lt _ (by omega)),
      List.length_append, List.length_cons, List.length_nil]
    have : (acc * 10 ^ (natDigits (n / 10)).length + n / 10) * 10 + n % 10 =
        acc * 10 ^ ((natDigits (n / 10)).length + (0 + 1)) + n := by
      rw [pow_succ]; ring_nf; omega
    rw [this]
  termination_by n
  decreasing_by exact Nat.div_lt_self (by omega) (by omega)

theorem parseDigitsAux_rbrace (acc : Nat) :
    parseDigitsAux ['\x7d'] acc = (acc, ['\x7d']) := by
  simp [parseDigitsAux, digitVal]

theorem parseNat_digits (n : Nat) :
    parseNat (natDigits n ++ ['\x7d']) = some (n, ['\x7d']) := by
  obtain ⟨c, cs, hcs, d, hd, hcd⟩ := natDigits_head n
  rw [hcs, List.cons_append, parseNat]
  have hv : digitVal c = some d := hcd ▸ digitVal_digitChar d hd
  simp only [hv, Option.isSome_some, if_pos]
  rw [← List.cons_append, ← hcs, parseDigitsAux_append, parseDigitsAux_rbrace]
  simp

theorem parseValue_digits (f n : Nat) :
    parseValue (f + 1) (natDigits n ++ ['\x7d']) = some (Json.num n, ['\x7d']) := by
  obtain ⟨c, cs, hcs, d, hd, hcd⟩ := natDigits_head n
  have key : parseValue (f + 1) (natDigits n ++ ['\x7d']) =
      (parseNat (natDigits n ++ ['\x7d'])).map
        (fun p => (Json.num (p.1 : Int), p.2)) := by
    rw [hcs, List.cons_append]
    subst hcd
    interval_cases d <;> rfl
  rw [key, parseNat_digits]
  rfl

theorem parseValue_cursorObj (f n : Nat) :
    parseValue (f + 3)
      ('\x7b':: '"':: 'o':: 'f':: 'f':: 's':: 'e':: 't':: '"':: ':':: (natDigits n ++ ['\x7d'])) =
      some (Json.obj [("offset", Json.num n)], []) := by
  have step1 : parseValue (f + 3)
      ('\x7b':: '"':: 'o':: 'f':: 'f':: 's':: 'e':: 't':: '"':: ':':: (natDigits n ++ ['\x7d'])) =
      (parseMembers (f + 2)
        ('"':: 'o':: 'f':: 'f':: 's':: 'e':: 't':: '"':: ':':: (natDigits n ++ ['\x7d']))).map
        (fun p => (Json.obj p.1, p.2)) := by
    obtain ⟨c, cs, hcs, d, hd, hcd⟩ := natDigits_head n
    rw [hcs, List.cons_append]
    subst hcd
    interval_cases d <;> rfl
  have step2 : parseMembers (f + 2)
      ('"':: 'o':: 'f':: 'f':: 's':: 'e':: 't':: '"':: ':':: (natDigits n ++ ['\x7d'])) =
      (match parseValue (f + 1) (natDigits n ++ ['\x7d']) with
       | none => none
       | some (v, r4) =>
         match skipWs r4 with
         | ',' :: r5 => (parseMembers (f + 1) r5).map (fun p => (("offset", v) :: p.1, p.2))
         | '\x7d' :: r5 => some ([("offset", v)], r5)
         | _ => none) := rfl
  rw [step1, step2, parseValue_digits]
  rfl



theorem jsonParse_cursorObj (n : Nat) :
    jsonParse ⟨'\x7b':: '"':: 'o':: 'f':: 'f':: 's':: 'e':: 't':: '"':: ':':: (natDigits n ++ ['\x7d'])⟩ =
      some (Json.obj [("offset", Json.num n)]) := by
  unfold jsonParse
  have hdata : (String.mk
      ('\x7b':: '"':: 'o':: 'f':: 'f':: 's':: 'e':: 't':: '"':: ':':: (natDigits n ++ ['\x7d']))).data =
      '\x7b':: '"':: 'o':: 'f':: 'f':: 's':: 'e':: 't':: '"':: ':':: (natDigits n ++ ['\x7d']) := rfl
  rw [hdata]
  have hlen : ('\x7b':: '"':: 'o':: 'f':: 'f':: 's':: 'e':: 't':: '"':: ':'::
      (natDigits n ++ ['\x7d'])).length + 1 = ((natDigits n).length + 9) + 3 := by
    simp [List.length_append]
  rw [hlen, parseValue_cursorObj]
  rfl

theorem stringify_cursorObj (n : Nat) :
    (jsonStringify (Json.obj [("offset", Json.num (n : Int))])).data =
      '\x7b':: '"':: 'o':: 'f':: 'f':: 's':: 'e':: 't':: '"':: ':':: (natDigits n ++ ['\x7d']) := by
  have h1 : jsonStringify (Json.obj [("offset", Json.num (n : Int))]) =
      "\x7b" ++ (quoteStr "offset" ++ ":" ++ intStr (n : Int)) ++ "\x7d" := rfl
  have h2 : intStr (n : Int) = ⟨natDigits n⟩ := by
    unfold intStr intChars
    rw [if_neg (by omega), Int.natAbs_ofNat]
  rw [h1, h2]
  simp [String.data_append, quoteStr]
  rfl



theorem b64CharVal_b64Char : ∀ v < 64, b64CharVal (b64Char v) = some v := by decide

theorem b64CharVal_eq : b64CharVal '=' = none := by decide

theorem b64_roundtrip (bs : List Nat) (h : ∀ x ∈ bs, x < 256) :
    b64DecodeVals ((b64EncodeBytes bs).filterMap b64CharVal) = bs := by
  match bs with
  | [] => rfl
  | [a] =>
    have ha : a < 256 := h a (by simp)
    rw [b64EncodeBytes]
    simp only [List.filterMap_cons,
      b64CharVal_b64Char (a / 4) (by omega),
      b64CharVal_b64Char (a % 4 * 16) (by omega),
      b64CharVal_eq, List.filterMap_nil]
    rw [b64DecodeVals]
    congr 1
    omega
  | [a, b] =>
    have ha : a < 256 := h a (by simp)
    have hb : b < 256 := h b (by simp)
    rw [b64EncodeBytes]
    simp only [List.filterMap_cons,
      b64CharVal_b64Char (a / 4) (by omega),
      b64CharVal_b64Char (a % 4 * 16 + b / 16) (by omega),
      b64CharVal_b64Char (b % 16 * 4) (by omega),
      b64CharVal_eq, List.filterMap_nil]
    rw [b64DecodeVals]
    congr 1
    · omega
    · congr 1
      omega
  | a :: b :: c :: rest =>
    have ha : a < 256 := h a (by simp)
    have hb : b < 256 := h b (by simp)
    have hc : c < 256 := h c (by simp)
    rw [b64EncodeBytes]
    simp only [List.filterMap_cons,
      b64CharVal_b64Char (a / 4) (by omega),
      b64CharVal_b64Char (a % 4 * 16 + b / 16) (by omega),
      b64CharVal_b64Char (b % 16 * 4 + c / 64) (by omega),
      b64CharVal_b64Char (c % 64) (by omega)]
    rw [b64DecodeVals]
    rw [b64_roundtrip rest (fun x hx => h x (by simp [hx]))]
    congr 1
    · omega
    · congr 1
      · omega
      · congr 1
        omega
  termination_by bs.length



theorem digitChar_toNat_lt : ∀ d < 10, (digitChar d).toNat < 256 := by decide

theorem natDigits_toNat_lt (n : Nat) : ∀ c ∈ natDigits n, c.toNat < 256 := by
  rw [natDigits]
  by_cases h : n < 10
  · simp only [h, dif_pos, List.mem_singleton]
    rintro c rfl
    exact digitChar_toNat_lt n h
  · simp only [h, dif_neg, not_false_iff, List.mem_append, List.mem_singleton]
    rintro c (hc | rfl)
    · exact natDigits_toNat_lt (n / 10) c hc
    · exact digitChar_toNat_lt (n % 10) (Nat.mod_lt _ (by omega))
  termination_by n
  decreasing_by exact Nat.div_lt_self (by omega) (by omega)

theorem bytesToStr_strToBytes (s : String) : bytesToStr (strToBytes s) = s := by
  unfold bytesToStr strToBytes
  rw [List.map_map]
  have : (Char.ofNat ∘ Char.toNat) = id := funext fun c => Char.ofNat_toNat c
  rw [this, List.map_id]

theorem cursor_roundtrip (o : Nat) :
    decodeCursor (encodeCursor (o : Int)) = .proceed (o : Int) := by
  unfold decodeCursor encodeCursor b64DecodeBytes
  have hdata : (String.mk (b64EncodeBytes (strToBytes
      (jsonStringify (Json.obj [("offset", Json.num (o : Int))]))))).data =
      b64EncodeBytes (strToBytes (jsonStringify (Json.obj [("offset", Json.num (o : Int))]))) := rfl
  rw [hdata]
  have hbound : ∀ x ∈ strToBytes (jsonStringify (Json.obj [("offset", Json.num (o : Int))])),
      x < 256 := by
    unfold strToBytes
    rw [stringify_cursorObj o]
    intro x hx
    simp only [List.mem_map] at hx
    obtain ⟨c, hc, rfl⟩ := hx
    simp only [List.mem_cons, List.mem_append, List.mem_singleton] at hc
    rcases hc with rfl | rfl | rfl | rfl | rfl | rfl | rfl | rfl | rfl | rfl | hc | rfl | hnil
    · decide
    · decide
    · decide
    · decide
    · decide
    · decide
    · decide
    · decide
    · decide
    · decide
    · exact natDigits_toNat_lt o c hc
    · decide
    · exact absurd hnil (List.not_mem_nil c)
  rw [b64_roundtrip _ hbound, bytesToStr_strToBytes]
  have hs : jsonStringify (Json.obj [("offset", Json.num (o : Int))]) =
      ⟨'\x7b':: '"':: 'o':: 'f':: 'f':: 's':: 'e':: 't':: '"':: ':':: (natDigits o ++ ['\x7d'])⟩ := by
    rw [← stringify_cursorObj o]
  rw [hs, jsonParse_cursorObj]
  rfl



/-! ## Claim theorems -/


/-- C6: for every non-negative integer offset `o`, decoding the cursor
produced by encoding `o` yields `o` back (`decode(encode(o)) == o`);
encode and decode are pure functions of their argument (the source block
reads no state beyond its inputs, which the functional model reflects). -/
theorem ct_cursor_encode_decode_roundtrip (o : Nat) :
    decodeCursor (encodeCursor (o : Int)) = CursorParse.proceed (o : Int) :=
  cursor_roundtrip o

/-- C1 counterexample: the claim demands `INVALID_INPUT` for a cursor
that is valid base64 of a JSON object with a missing `offset` field
(`"e30="` is base64 of the empty object) or with a negative `offset`
(`"eyJvZmZzZXQiOi01fQ=="` is base64 of an object whose `offset` is
negative five); `ctSearch` instead proceeds and returns a success
envelope in both cases. -/
theorem ct_cursor_missing_offset_not_rejected :
    (ctSearch sampleConfig "2024-01-01T00:00:00.000Z" (.response ⟨200, some "[]"⟩)
      (Json.obj [("domain", Json.str "example.com"),
                 ("cursor", Json.str "e30=")])).errorCode = none ∧
    (ctSearch sampleConfig "2024-01-01T00:00:00.000Z" (.response ⟨200, some "[]"⟩)
      (Json.obj [("domain", Json.str "example.com"),
                 ("cursor", Json.str "eyJvZmZzZXQiOi01fQ==")])).errorCode = none :=
  ⟨rfl, rfl⟩

/-- C1 amended: a cursor whose base64-decoded content fails to parse as
JSON (or parses as `null`) makes `ctSearch` return the `INVALID_INPUT`
envelope with message `"Invalid pagination cursor"` (mentioning
"cursor"), never a crash; but a cursor decoding to an object with a
missing or null `offset` silently proceeds with offset 0, and a negative
decoded `offset` is accepted as-is. -/
theorem ct_malformed_cursor_invalid_input
    (cfg : ServerConfig) (now : String) (outcome : FetchOutcome) (input : Json)
    (p : CtParsed) (c : String)
    (hval : ctValidate input = .ok p) (hc : p.cursor = some c)
    (hdec : decodeCursor c = .fail) :
    ctSearch cfg now outcome input =
      .failure ⟨.INVALID_INPUT, "Invalid pagination cursor", Json.obj []⟩ now := by
  simp only [ctSearch, ctCursorOf, hval, hc, hdec]

theorem ct_malformed_cursor_invalid_input_witness :
    ctSearch sampleConfig "t" (.response ⟨200, some "[]"⟩)
        (Json.obj [("domain", Json.str "example.com"),
                   ("cursor", Json.str "invalid-cursor")]) =
      .failure ⟨.INVALID_INPUT, "Invalid pagination cursor", Json.obj []⟩ "t" :=
  ct_malformed_cursor_invalid_input sampleConfig "t" (.response ⟨200, some "[]"⟩)
    (Json.obj [("domain", Json.str "example.com"),
               ("cursor", Json.str "invalid-cursor")])
    ⟨"example.com", 100, some "invalid-cursor"⟩ "invalid-cursor" rfl rfl rfl

/-- C2 counterexample: the exact body of the claim carries its version in
a `protocolVersion` field, but the transport checks the `jsonrpc` field
(`!request.jsonrpc || request.jsonrpc !== '2.0'`), so this body is
rejected with HTTP 400 and JSON-RPC error -32600 - not answered with
HTTP 200 and a tool list. -/
theorem mcp_protocol_version_body_rejected :
    (handleMcpPost trivialAdapters "m"
      "\x7b\"protocolVersion\":\"2.0\",\"id\":1,\"method\":\"tools/list\"\x7d").status
      = 400 := rfl

/-- C2 amended: the same request with the version carried in the
`jsonrpc` field (as the repository's own tests send it) yields HTTP 200
and a body whose `result.tools` names are exactly
`rdap_lookup`, `dns_query`, `ct_search` in that order. -/
theorem mcp_jsonrpc_tools_list (adapters : Adapters) (excMsg : String) :
    (handleMcpPost adapters excMsg
      "\x7b\"jsonrpc\":\"2.0\",\"id\":1,\"method\":\"tools/list\"\x7d").status = 200 ∧
    toolNamesOf (handleMcpPost adapters excMsg
      "\x7b\"jsonrpc\":\"2.0\",\"id\":1,\"method\":\"tools/list\"\x7d").body =
      [.str "rdap_lookup", .str "dns_query", .str "ct_search"] :=
  ⟨rfl, rfl⟩




/-- C3: for every `tools/call` request naming a registered tool, when the
invoked adapter resolves with an envelope `env` having `ok: false`, the
dispatcher still returns a JSON-RPC `result` (not `error`) whose
`content` is the single text item carrying the pretty-printed serialized
envelope; a domain failure is never promoted to a JSON-RPC-level
error. -/
theorem tools_call_ok_false_still_result
    (adapters : Adapters) (request env : Json)
    (hm : jLookup request "method" = some (.str "tools/call"))
    (hcall : toolCallDispatch adapters (jLookup request "params") = some (.resolved env))
    (_hok : jLookup env "ok" = some (.bool false)) :
    handleJsonRpcRequest adapters request =
      ⟨jLookup request "id", .result (toolContentResult env)⟩ := by
  simp only [handleJsonRpcRequest, hm, hcall]

theorem tools_call_ok_false_still_result_witness :
    handleJsonRpcRequest
        ⟨fun _ => .resolved (.obj [("ok", .bool false)]),
         fun _ => .resolved (.obj [("ok", .bool false)]),
         fun _ => .resolved (.obj [("ok", .bool false)])⟩
        (Json.obj [("id", .num 7), ("method", .str "tools/call"),
                   ("params", .obj [("name", .str "ct_search"),
                                    ("arguments", .obj [("domain", .str "example.com")])])]) =
      ⟨some (.num 7), .result (toolContentResult (.obj [("ok", .bool false)]))⟩ :=
  tools_call_ok_false_still_result _ _ (.obj [("ok", .bool false)]) rfl rfl rfl

/-- C5: the dispatcher always returns a JSON-RPC response frame (it is a
total function): a method outside initialize / tools-list / tools-call
yields error -32601 with the method displayed in the message; a
`tools/call` on an unregistered tool yields -32601 with the unknown tool
name embedded; an exception thrown during the awaited dispatch is caught
and converted to -32603 with the exception's message appended. -/
theorem dispatcher_protocol_error_frames (adapters : Adapters) (request : Json) :
    (isKnownMethod (jLookup request "method") = false →
      (handleJsonRpcRequest adapters request).outcome =
        .rpcError (-32601)
          ("Method not found: " ++ jsDisplayOpt (jLookup request "method"))) ∧
    (jLookup request "method" = some (.str "tools/call") →
      toolCallDispatch adapters (jLookup request "params") = none →
      (handleJsonRpcRequest adapters request).outcome =
        .rpcError (-32601)
          ("Unknown tool: " ++
            jsDisplayOpt ((jLookup request "params").bind (jLookup · "name")))) ∧
    (∀ m, jLookup request "method" = some (.str "tools/call") →
      toolCallDispatch adapters (jLookup request "params") = some (.thrown m) →
      (handleJsonRpcRequest adapters request).outcome =
        .rpcError (-32603) ("Internal error: " ++ m)) := by
  refine ⟨?_, ?_, ?_⟩
  · intro hunk
    simp only [handleJsonRpcRequest]
    split
    · rename_i h; rw [h] at hunk; exact absurd hunk (by simp [isKnownMethod])
    · rename_i h; rw [h] at hunk; exact absurd hunk (by simp [isKnownMethod])
    · rename_i h; rw [h] at hunk; exact absurd hunk (by simp [isKnownMethod])
    · rfl
  · intro hm hnone
    simp only [handleJsonRpcRequest, hm, hnone]
  · intro m hm hthrown
    simp only [handleJsonRpcRequest, hm, hthrown]

theorem dispatcher_protocol_error_frames_witness :
    (handleJsonRpcRequest trivialAdapters
      (Json.obj [("id", .num 1), ("method", .str "bogus")])).outcome =
        .rpcError (-32601) ("Method not found: bogus") ∧
    (handleJsonRpcRequest trivialAdapters
      (Json.obj [("id", .num 1), ("method", .str "tools/call"),
                 ("params", .obj [("name", .str "no_such_tool")])])).outcome =
        .rpcError (-32601) ("Unknown tool: no_such_tool") ∧
    (handleJsonRpcRequest
        ⟨fun _ => .thrown "boom", fun _ => .thrown "boom", fun _ => .thrown "boom"⟩
      (Json.obj [("id", .num 1), ("method", .str "tools/call"),
                 ("params", .obj [("name", .str "dns_query")])])).outcome =
        .rpcError (-32603) ("Internal error: boom") := by
  refine ⟨?_, ?_, ?_⟩
  · exact (dispatcher_protocol_error_frames trivialAdapters _).1 rfl
  · exact (dispatcher_protocol_error_frames trivialAdapters _).2.1 rfl rfl
  · exact (dispatcher_protocol_error_frames _ _).2.2 "boom" rfl rfl




theorem lookup_mapDelete (t : List (String × Nat)) (S : String) :
    (mapDelete S t).lookup S = none := by
  induction t with
  | nil => rfl
  | cons hd tl ih =>
    obtain ⟨k, v⟩ := hd
    by_cases h : k = S
    · simpa [mapDelete, List.filter, h] using ih
    · have hbeq : (S == k) = false := beq_eq_false_iff_ne.mpr (Ne.symm h)
      simp only [mapDelete, List.filter] at ih ⊢
      simp only [decide_eq_true h, List.lookup, hbeq]
      exact ih




/-- C7: on every successful `ct_search` call with decoded offset `o`,
validated limit `l`, and `total_available` upstream entries,
`meta.pagination.next_cursor` is `null` exactly when
`o + l >= total_available`, and otherwise encodes `o + l`. -/
theorem ct_next_cursor_pagination
    (cfg : ServerConfig) (now : String) (input : Json) (p : CtParsed) (o : Int)
    (status : Nat) (text : String) (entries : List Json) (certs : List Json)
    (hval : ctValidate input = .ok p)
    (hcur : ctCursorOf p = .proceed o)
    (hok : statusOk status = true)
    (htext : (if text = "" ∨ jsTrim text = "" then some (Json.arr []) else jsonParse text)
      = some (Json.arr entries))
    (hmap : (jsSlice entries o (o + p.limit)).mapM transformCertificate = .ok certs) :
    (ctSearch cfg now (.response ⟨status, some text⟩) input).pagin? =
      some ⟨if o + (p.limit : Int) < (entries.length : Int)
            then some (encodeCursor (o + (p.limit : Int))) else none⟩ := by
  simp only [ctSearch, hval, hcur, hok, not_true_eq_false, Bool.false_eq_true, if_false,
    htext, hmap, Response.pagin?]

theorem ct_next_cursor_pagination_witness :
    (ctSearch sampleConfig "t" (.response ⟨200, some "[]"⟩)
      (Json.obj [("domain", Json.str "example.com")])).pagin? = some ⟨none⟩ := by
  have h := ct_next_cursor_pagination sampleConfig "t"
    (Json.obj [("domain", Json.str "example.com")])
    ⟨"example.com", 100, none⟩ 0 200 "[]" [] [] rfl rfl rfl rfl rfl
  simpa using h

/-- C8: once a session `S` has been removed from the session table by its
transport's close event, a request bearing `mcp-session-id: S` is treated
as sessionless: with a session factory configured, a brand-new session is
minted under the freshly generated UUID and stored, and the request is
delegated to that new session (`isNew = true`) - the closed session is
never resumed. -/
theorem session_closed_id_not_resumed (st : SessionState) (S freshId : String) :
    ((closeSession st S).table.lookup S = none) ∧
    (handleMcpSession true freshId (closeSession st S) (some S) =
      (⟨mapSet (closeSession st S).table freshId st.nextHandle, st.nextHandle + 1⟩,
       .delegated freshId st.nextHandle true)) := by
  have hnone : List.lookup S (mapDelete S st.table) = none := lookup_mapDelete st.table S
  refine ⟨hnone, ?_⟩
  simp [handleMcpSession, hnone, closeSession]

/-- C9: in the MCP-server tool-call handler registered by `createServer`,
a `tools/call` naming an unregistered tool produces a normal result (not
a JSON-RPC protocol error) whose content text is the pretty-printed
envelope with `ok: false`, code `INVALID_INPUT`, message
`Unknown tool: <name>`, and `details.available_tools` listing the three
registered tool names. -/
theorem createServer_unknown_tool_envelope
    (adapters : CallAdapters) (now name : String) (args : Option Json)
    (h1 : name ≠ "rdap_lookup") (h2 : name ≠ "dns_query") (h3 : name ≠ "ct_search") :
    createServerCallTool adapters now name args =
      .obj [("content", .arr [.obj [("type", .str "text"),
        ("text", .str (stringifyPretty (.obj [("ok", .bool false),
          ("error", .obj [("code", .str "INVALID_INPUT"),
                          ("message", .str ("Unknown tool: " ++ name)),
                          ("details", .obj [("available_tools",
                             .arr [.str "rdap_lookup", .str "dns_query",
                                   .str "ct_search"])])]),
          ("meta", .obj [("retrieved_at", .str now)])])))]])] := by
  unfold createServerCallTool
  split
  · exact absurd rfl h1
  · exact absurd rfl h2
  · exact absurd rfl h3
  · rfl

theorem createServer_unknown_tool_envelope_witness :
    createServerCallTool trivialCallAdapters "t" "bogus" none =
      .obj [("content", .arr [.obj [("type", .str "text"),
        ("text", .str (stringifyPretty (.obj [("ok", .bool false),
          ("error", .obj [("code", .str "INVALID_INPUT"),
                          ("message", .str "Unknown tool: bogus"),
                          ("details", .obj [("available_tools",
                             .arr [.str "rdap_lookup", .str "dns_query",
                                   .str "ct_search"])])]),
          ("meta", .obj [("retrieved_at", .str "t")])])))]])] :=
  createServer_unknown_tool_envelope trivialCallAdapters "t" "bogus" none
    (by decide) (by decide) (by decide)




/-- C10: for every valid `dns_query` input whose resolver is a
syntactically valid IPv4 address outside the five known resolver IPs
(`DOH_ENDPOINTS.lookup r = none`), a successful query is silently served
from Google's DoH endpoint: `meta.source` is
`https://dns.google/resolve` while `data.resolver` still echoes the
requested resolver, and the only possible warning is the no-records
message - nothing mentions the fallback. -/
theorem dns_unknown_resolver_google_fallback
    (cfg : ServerConfig) (now : String) (input : Json) (p : DnsParsed) (r : String)
    (status : Nat) (text : String) (kvs : List (String × Json))
    (answers : List Json) (records : List DnsRecord)
    (hval : dnsValidate input = .ok p)
    (hres : p.resolver = some r)
    (hlook : DOH_ENDPOINTS.lookup r = none)
    (hok : statusOk status = true)
    (hparse : jsonParse text = some (.obj kvs))
    (hstat : kvs.lookup "Status" = some (.num 0))
    (hans : (match kvs.lookup "Answer" with
             | some (.arr xs) => Except.ok xs
             | none => Except.ok ([] : List Json)
             | some .null => Except.ok ([] : List Json)
             | some _ => Except.error "answers.filter is not a function") = Except.ok answers)
    (hrecs : parseRecords answers p.type = .ok records) :
    dnsQuery cfg now (.response ⟨status, some text⟩) input =
      .success ⟨p.name, p.type, r, records⟩
        ⟨some "https://dns.google/resolve", now, none,
         some (if records.length = 0
               then ["No " ++ dnsTypeToString p.type ++ " records found for " ++ p.name]
               else [])⟩ := by
  have hep : dohEndpointFor r = "https://dns.google/resolve" := by
    rw [dohEndpointFor, hlook]; rfl
  simp only [dnsQuery, hval, hres, Option.getD_some, hep, hok, not_true_eq_false,
    Bool.false_eq_true, if_false, hparse, jLookup, hstat, hans, hrecs]

theorem dns_unknown_resolver_google_fallback_witness :
    dnsQuery sampleConfig "t"
        (.response ⟨200, some "\x7b\"Status\":0\x7d"⟩)
        (Json.obj [("name", Json.str "example.com"), ("type", Json.str "A"),
                   ("resolver", Json.str "5.5.5.5")]) =
      .success ⟨"example.com", .A, "5.5.5.5", []⟩
        ⟨some "https://dns.google/resolve", "t", none,
         some ["No A records found for example.com"]⟩ := by
  have h := dns_unknown_resolver_google_fallback sampleConfig "t"
    (Json.obj [("name", Json.str "example.com"), ("type", Json.str "A"),
               ("resolver", Json.str "5.5.5.5")])
    ⟨"example.com", .A, some "5.5.5.5"⟩ "5.5.5.5" 200 "\x7b\"Status\":0\x7d"
    [("Status", Json.num 0)] [] [] rfl rfl rfl rfl rfl rfl rfl rfl
  simpa using h




/-- C4: each of the three tool adapters is a total function (it never
throws - it always resolves to an envelope), and every failure mode maps
to its error code: `INVALID_INPUT` on failed validation, `TIMEOUT` on an
aborted call, `INTERNAL_ERROR` on any other thrown error, `RATE_LIMITED`
on upstream HTTP 429, `UPSTREAM_ERROR` on other upstream non-2xx
statuses, and `PARSE_ERROR` on response-parse failure; the `ErrorCode`
type of the model is the closed six-value taxonomy. -/
theorem adapters_error_code_mapping (cfg : ServerConfig) (now : String) (input : Json) :
    ((∀ outcome msgs, ctValidate input = .error msgs →
        (ctSearch cfg now outcome input).errorCode = some .INVALID_INPUT) ∧
     (∀ p o, ctValidate input = .ok p → ctCursorOf p = .proceed o →
       ((ctSearch cfg now .abort input).errorCode = some .TIMEOUT) ∧
       (∀ m, (ctSearch cfg now (.failure m) input).errorCode = some .INTERNAL_ERROR) ∧
       (∀ b, (ctSearch cfg now (.response ⟨429, b⟩) input).errorCode = some .RATE_LIMITED) ∧
       (∀ st b, statusOk st = false → st ≠ 429 →
         (ctSearch cfg now (.response ⟨st, b⟩) input).errorCode = some .UPSTREAM_ERROR) ∧
       (∀ st, statusOk st = true →
         (ctSearch cfg now (.response ⟨st, none⟩) input).errorCode = some .PARSE_ERROR) ∧
       (∀ st text, statusOk st = true → text ≠ "" → jsTrim text ≠ "" →
         jsonParse text = none →
         (ctSearch cfg now (.response ⟨st, some text⟩) input).errorCode =
           some .PARSE_ERROR))) ∧
    ((∀ outcome msgs, dnsValidate input = .error msgs →
        (dnsQuery cfg now outcome input).errorCode = some .INVALID_INPUT) ∧
     (∀ p, dnsValidate input = .ok p →
       ((dnsQuery cfg now .abort input).errorCode = some .TIMEOUT) ∧
       (∀ m, (dnsQuery cfg now (.failure m) input).errorCode = some .INTERNAL_ERROR) ∧
       (∀ b, (dnsQuery cfg now (.response ⟨429, b⟩) input).errorCode = some .RATE_LIMITED) ∧
       (∀ st b, statusOk st = false → st ≠ 429 →
         (dnsQuery cfg now (.response ⟨st, b⟩) input).errorCode = some .UPSTREAM_ERROR) ∧
       (∀ st, statusOk st = true →
         (dnsQuery cfg now (.response ⟨st, none⟩) input).errorCode = some .PARSE_ERROR) ∧
       (∀ st text, statusOk st = true → jsonParse text = none →
         (dnsQuery cfg now (.response ⟨st, some text⟩) input).errorCode =
           some .PARSE_ERROR))) ∧
    ((∀ outcome msgs, rdapValidate input = .error msgs →
        (rdapLookup cfg now outcome input).errorCode = some .INVALID_INPUT) ∧
     (∀ d, rdapValidate input = .ok d →
       ((rdapLookup cfg now .abort input).errorCode = some .TIMEOUT) ∧
       (∀ m, (rdapLookup cfg now (.failure m) input).errorCode = some .INTERNAL_ERROR) ∧
       (∀ b, (rdapLookup cfg now (.response ⟨429, b⟩) input).errorCode = some .RATE_LIMITED) ∧
       (∀ st b, statusOk st = false → st ≠ 429 →
         (rdapLookup cfg now (.response ⟨st, b⟩) input).errorCode = some .UPSTREAM_ERROR) ∧
       (∀ st, statusOk st = true →
         (rdapLookup cfg now (.response ⟨st, none⟩) input).errorCode = some .PARSE_ERROR) ∧
       (∀ st text, statusOk st = true → jsonParse text = none →
         (rdapLookup cfg now (.response ⟨st, some text⟩) input).errorCode =
           some .PARSE_ERROR))) := by
  refine ⟨⟨?_, ?_⟩, ⟨?_, ?_⟩, ⟨?_, ?_⟩⟩
  · intro outcome msgs hval
    simp only [ctSearch, hval, Response.errorCode]
  · intro p o hval hcur
    refine ⟨?_, ?_, ?_, ?_, ?_, ?_⟩
    · simp only [ctSearch, hval, hcur, Response.errorCode]
    · intro m; simp only [ctSearch, hval, hcur, Response.errorCode]
    · intro b; simp only [ctSearch, hval, hcur]; rfl
    · intro st b hfail hne
      simp only [ctSearch, hval, hcur, hfail, Bool.false_eq_true, not_false_iff,
        if_true, if_neg hne, Response.errorCode]
    · intro st hok
      simp only [ctSearch, hval, hcur, hok, not_true_eq_false, Bool.false_eq_true,
        if_false, Response.errorCode]
    · intro st text hok hne htrim hparse
      simp only [ctSearch, hval, hcur, hok, not_true_eq_false, Bool.false_eq_true,
        if_false, hne, htrim, or_self, if_false, hparse, Response.errorCode]
  · intro outcome msgs hval
    simp only [dnsQuery, hval, Response.errorCode]
  · intro p hval
    refine ⟨?_, ?_, ?_, ?_, ?_, ?_⟩
    · simp only [dnsQuery, hval, Response.errorCode]
    · intro m; simp only [dnsQuery, hval, Response.errorCode]
    · intro b; simp only [dnsQuery, hval]; rfl
    · intro st b hfail hne
      simp only [dnsQuery, hval, hfail, Bool.false_eq_true, not_false_iff,
        if_true, if_neg hne, Response.errorCode]
    · intro st hok
      simp only [dnsQuery, hval, hok, not_true_eq_false, Bool.false_eq_true,
        if_false, Response.errorCode]
    · intro st text hok hparse
      simp only [dnsQuery, hval, hok, not_true_eq_false, Bool.false_eq_true,
        if_false, hparse, Response.errorCode]
  · intro outcome msgs hval
    simp only [rdapLookup, hval, Response.errorCode]
  · intro d hval
    refine ⟨?_, ?_, ?_, ?_, ?_, ?_⟩
    · simp only [rdapLookup, hval, Response.errorCode]
    · intro m; simp only [rdapLookup, hval, Response.errorCode]
    · intro b; simp only [rdapLookup, hval]; rfl
    · intro st b hfail hne
      by_cases h404 : st = 404
      · subst h404
        simp only [rdapLookup, hval, hfail, Bool.false_eq_true, not_false_iff,
          if_true, Response.errorCode]
      · simp only [rdapLookup, hval, hfail, Bool.false_eq_true, not_false_iff,
          if_true, if_neg h404, if_neg hne, Response.errorCode]
    · intro st hok
      simp only [rdapLookup, hval, hok, not_true_eq_false, Bool.false_eq_true,
        if_false, Response.errorCode]
    · intro st text hok hparse
      simp only [rdapLookup, hval, hok, not_true_eq_false, Bool.false_eq_true,
        if_false, hparse, Response.errorCode]



theorem adapters_error_code_mapping_witness :
    (ctSearch sampleConfig "t" .abort
       (Json.obj [("domain", Json.str "example.com")])).errorCode = some .TIMEOUT ∧
    (dnsQuery sampleConfig "t" .abort
       (Json.obj [("name", Json.str "example.com"),
                  ("type", Json.str "A")])).errorCode = some .TIMEOUT ∧
    (rdapLookup sampleConfig "t" (.response ⟨429, none⟩)
       (Json.obj [("domain", Json.str "example.com")])).errorCode = some .RATE_LIMITED := by
  refine ⟨?_, ?_, ?_⟩
  · exact ((adapters_error_code_mapping sampleConfig "t"
      (Json.obj [("domain", Json.str "example.com")])).1.2
      ⟨"example.com", 100, none⟩ 0 rfl rfl).1
  · exact ((adapters_error_code_mapping sampleConfig "t"
      (Json.obj [("name", Json.str "example.com"), ("type", Json.str "A")])).2.1.2
      ⟨"example.com", .A, none⟩ rfl).1
  · exact (((adapters_error_code_mapping sampleConfig "t"
      (Json.obj [("domain", Json.str "example.com")])).2.2.2
      "example.com" rfl).2.2.1) none


end DnsIntel
